import Mathlib

/-!
# Content-protection negotiation (weston `content_protection_server.c`)

A shallow embedding of the server side of the content-protection module:
`request_cp_state`, `retry_cp`, `observe_cp_state`, `desired`, `disable`
and `wet_module_init`.

The C code mutates one global `struct content_protection_t`, calls the
compositor (`weston_set_cp`, `weston_get_cp`), sends protocol events and
arms two event-loop timers.  Here every function takes a `World` and
returns the next one.  A `World` holds the context, the state of the
compositor backend and the chronological list of effects performed so far.

What is not modelled: `weston_log` calls (they change nothing), the unused
`struct wl_client *client` argument of the two request handlers, and the
fields `compositor`, `protection_status` and `protection_required`, which no
function reads or writes after start-up.
-/

namespace ContentProtection

/-! ## Constants of the source -/

/-- `#define OBSERVE_TIME_USEC 1000`. -/
def OBSERVE_TIME_USEC : Nat := 1000

/-- `#define WAIT_FOR_DISABLE_SEC 1`. -/
def WAIT_FOR_DISABLE_SEC : Nat := 1

/-- `#define MAX_USER_RETRY 3`. -/
def MAX_USER_RETRY : Int := 3

/-- `#define EBUSY 16`. -/
def EBUSY : Int := 16

/-! ## Data model -/

/-- `enum cp_request_status`. -/
inductive cp_request_status
  | CP_UNDESIRED
  | CP_DESIRED
  | CP_ENABLED
  | CP_FAILED
  deriving DecidableEq, Repr

open cp_request_status

/-- The integer value of an enumerator of `enum cp_request_status`, as it is
passed to `weston_set_cp` in the `cp_request` argument. -/
def cp_request_status.toInt : cp_request_status → Int
  | CP_UNDESIRED => 0
  | CP_DESIRED => 1
  | CP_ENABLED => 2
  | CP_FAILED => 3

/-- The two event-loop timers created in `wet_module_init`. -/
inductive Timer
  | observe
  | retry
  deriving DecidableEq, Repr

/-- `struct content_protection_t`.  A timer handle is represented by the state
of the timer it points to: `0` when the timer is disarmed, otherwise the delay
it was last armed with.  `type` holds an `enum content_protection_type` value,
`resource` the client resource events are sent to. -/
structure content_protection_t where
  status : cp_request_status
  type : Int
  observe_event_source : Nat
  retry_event_source : Nat
  resource : Nat
  retries_left : Int
  num_sec_elapsed : Int
  deriving DecidableEq, Repr

/-- Everything the module does that is visible outside it, in the order it
happens. -/
inductive Effect
  | weston_set_cp (enable : Int) (content_type : Int) (ret : Int)
  | weston_get_cp (content_type : Int) (ret : Int) (enable : Bool)
  | send_status_changed (resource : Nat) (type : Int)
  | timer_update (source : Timer) (ms_delay : Nat)
  | sleep (seconds : Nat)
  | usleep (usec : Nat)
  deriving DecidableEq, Repr

/-- What the module takes from outside the repository.  `weston_set_cp` and
`weston_get_cp` are declared `extern` in the source; a call is a function of
the backend state and the arguments, giving the return code, for
`weston_get_cp` the value found in `*enable` after the call, and the next
backend state.  `CONTENT_PROTECTION_TYPE_UNPROTECTED` is an enumerator of the
generated protocol header. -/
structure Env (β : Type) where
  weston_set_cp : β → Int → Int → Int × β
  weston_get_cp : β → Int → Int × Bool × β
  CONTENT_PROTECTION_TYPE_UNPROTECTED : Int

/-- The global context `cp`, the backend, and the effects so far. -/
structure World (β : Type) where
  cp : content_protection_t
  backend : β
  trace : List Effect

variable {β : Type}

/-! ## Calls out of the module -/

/-- `weston_set_cp(wc, enable, content_type)`: the return code and the world
after the call. -/
def call_set_cp (E : Env β) (w : World β) (enable content_type : Int) : Int × World β :=
  let r := E.weston_set_cp w.backend enable content_type
  (r.1, { w with backend := r.2,
                 trace := w.trace ++ [Effect.weston_set_cp enable content_type r.1] })

/-- `weston_get_cp(wc, &enable, content_type)`: the return code, the value of
`enable` after the call, and the world after the call. -/
def call_get_cp (E : Env β) (w : World β) (content_type : Int) : Int × Bool × World β :=
  let r := E.weston_get_cp w.backend content_type
  (r.1, r.2.1, { w with backend := r.2.2,
                        trace := w.trace ++ [Effect.weston_get_cp content_type r.1 r.2.1] })

/-- `content_protection_send_status_changed(resource, type)`. -/
def send_status_changed (w : World β) (resource : Nat) (type : Int) : World β :=
  { w with trace := w.trace ++ [Effect.send_status_changed resource type] }

/-- Modelled from the spec: `wl_event_source_timer_update` belongs to the
event-loop library; the spec's timer facility arms the timer with the given
delay, re-arming reschedules it, and a zero delay disarms it. -/
def wl_event_source_timer_update (w : World β) (source : Timer) (ms_delay : Nat) : World β :=
  match source with
  | Timer.observe =>
    { w with cp := { w.cp with observe_event_source := ms_delay },
             trace := w.trace ++ [Effect.timer_update Timer.observe ms_delay] }
  | Timer.retry =>
    { w with cp := { w.cp with retry_event_source := ms_delay },
             trace := w.trace ++ [Effect.timer_update Timer.retry ms_delay] }

/-- `sleep(seconds)`. -/
def sleep (w : World β) (seconds : Nat) : World β :=
  { w with trace := w.trace ++ [Effect.sleep seconds] }

/-- `usleep(usec)`. -/
def usleep (w : World β) (usec : Nat) : World β :=
  { w with trace := w.trace ++ [Effect.usleep usec] }

/-! ## The functions of the source -/

/-- The `do { ... } while (--retry)` loop of `request_cp_state`.  The `Nat`
argument is the value `--retry` yields at the end of the pass that is about to
run: the loop goes round again only when it is not zero. -/
def request_cp_state_loop (E : Env β) (cp_request type : Int) :
    Nat → World β → Int × World β
  | n, w =>
    let r := call_set_cp E w cp_request type
    if r.1 = -EBUSY then
      match n with
      | 0 => (r.1, sleep r.2 1)
      | m + 1 => request_cp_state_loop E cp_request type m (sleep r.2 1)
    else if r.1 < 0 then
      (r.1, r.2)
    else
      (r.1, r.2)

/-- `request_cp_state(wc, cp_request, type)`.  The source starts the loop
with `retry = 1`, so the first `--retry` yields `1 - 1`. -/
def request_cp_state (E : Env β) (w : World β) (cp_request type : Int) : Int × World β :=
  let retry : Nat := 1
  request_cp_state_loop E cp_request type (retry - 1) w

/-- `retry_cp(data)`, the callback of the retry timer. -/
def retry_cp (E : Env β) (w : World β) : Int × World β :=
  if w.cp.retries_left ≤ 0 then
    (-1, w)
  else
    let g := call_get_cp E w w.cp.type
    let ret := g.1
    let enable := g.2.1
    let w := g.2.2
    if ret < 0 then
      (-1, { w with cp := { w.cp with status := CP_FAILED } })
    else if enable then
      let w := { w with cp := { w.cp with status := CP_ENABLED } }
      let w := send_status_changed w w.cp.resource w.cp.type
      let w := wl_event_source_timer_update w Timer.observe OBSERVE_TIME_USEC
      (0, w)
    else if w.cp.num_sec_elapsed < MAX_USER_RETRY * 5 then
      let w := { w with cp := { w.cp with num_sec_elapsed := w.cp.num_sec_elapsed + 1 } }
      let w := wl_event_source_timer_update w Timer.retry 1000
      (0, w)
    else
      let s := request_cp_state E w CP_DESIRED.toInt w.cp.type
      let ret := s.1
      let w := s.2
      if ret < 0 then
        (-1, w)
      else
        let w := { w with cp := { w.cp with retries_left := w.cp.retries_left - 1 } }
        let w := { w with cp := { w.cp with num_sec_elapsed := 0 } }
        let w := wl_event_source_timer_update w Timer.retry 1000
        (0, w)

/-- `observe_cp_state(data)`, the callback of the observer timer. -/
def observe_cp_state (E : Env β) (w : World β) : Int × World β :=
  let g := call_get_cp E w w.cp.type
  let ret := g.1
  let enable := g.2.1
  let w := g.2.2
  if ret < 0 then
    (-1, w)
  else if w.cp.status = CP_ENABLED then
    if enable then
      (0, wl_event_source_timer_update w Timer.observe OBSERVE_TIME_USEC)
    else
      let w := { w with cp := { w.cp with status := CP_FAILED } }
      (0, send_status_changed w w.cp.resource E.CONTENT_PROTECTION_TYPE_UNPROTECTED)
  else
    (0, w)

/-- `desired(client, resource, content_type)`, the handler of the `desired`
request. -/
def desired (E : Env β) (w : World β) (resource : Nat) (content_type : Int) : World β :=
  let w := { w with cp := { w.cp with resource := resource } }
  if (w.cp.status = CP_DESIRED ∨ w.cp.status = CP_ENABLED) ∧ w.cp.type = content_type then
    w
  else
    let g := call_get_cp E w content_type
    let ret := g.1
    let status := g.2.1
    let w := g.2.2
    if ret < 0 then
      w
    else if status then
      let w := { w with cp := { w.cp with status := CP_ENABLED } }
      let w := send_status_changed w w.cp.resource w.cp.type
      wl_event_source_timer_update w Timer.observe OBSERVE_TIME_USEC
    else
      let w := wl_event_source_timer_update w Timer.observe 0
      let s := request_cp_state E w CP_DESIRED.toInt content_type
      let ret := s.1
      let w := s.2
      if ret < 0 then
        w
      else
        let w := { w with cp := { w.cp with status := CP_DESIRED } }
        let w := { w with cp := { w.cp with type := content_type } }
        let w := { w with cp := { w.cp with retries_left := MAX_USER_RETRY } }
        wl_event_source_timer_update w Timer.retry 100

/-- `disable(client, resource)`, the handler of the `disable` request. -/
def disable (E : Env β) (w : World β) (resource : Nat) : World β :=
  let w := { w with cp := { w.cp with resource := resource } }
  if w.cp.status = CP_UNDESIRED then
    w
  else
    let g := call_get_cp E w 0
    let ret := g.1
    let status := g.2.1
    let w := g.2.2
    if ret < 0 then
      w
    else if !status then
      { w with cp := { w.cp with status := CP_UNDESIRED } }
    else
      let s := request_cp_state E w CP_UNDESIRED.toInt 0
      let ret := s.1
      let w := s.2
      if ret < 0 then
        w
      else
        let w := { w with cp := { w.cp with status := CP_UNDESIRED } }
        let w := send_status_changed w w.cp.resource E.CONTENT_PROTECTION_TYPE_UNPROTECTED
        let w := wl_event_source_timer_update w Timer.observe 0
        let w := wl_event_source_timer_update w Timer.retry 0
        usleep w WAIT_FOR_DISABLE_SEC

/-- The context `wet_module_init` leaves behind when it succeeds: `zalloc`
clears every field, then `status = CP_FAILED` and
`retries_left = MAX_USER_RETRY`; both timers are created disarmed. -/
def wet_module_init (b : β) : World β :=
  { cp := { status := CP_FAILED, type := 0, observe_event_source := 0,
            retry_event_source := 0, resource := 0,
            retries_left := MAX_USER_RETRY, num_sec_elapsed := 0 },
    backend := b,
    trace := [] }

/-! ## Requests and timer expiries -/

/-- What the event loop can hand to the module: one of the two requests of
the protocol, or the expiry of one of the two timers. -/
inductive Input
  | Desired (resource : Nat) (content_type : Int)
  | Disable (resource : Nat)
  | RetryTick
  | ObserveTick
  deriving DecidableEq, Repr

/-- One dispatch of the event loop.  A timer expires only while it is armed;
the expiry disarms it (the timers are one-shot) and then runs its callback,
which may arm it again.  `none` when the input cannot occur. -/
def dispatch (E : Env β) (w : World β) : Input → Option (World β)
  | Input.Desired resource content_type => some (desired E w resource content_type)
  | Input.Disable resource => some (disable E w resource)
  | Input.RetryTick =>
    if w.cp.retry_event_source = 0 then none
    else some (retry_cp E { w with cp := { w.cp with retry_event_source := 0 } }).2
  | Input.ObserveTick =>
    if w.cp.observe_event_source = 0 then none
    else some (observe_cp_state E { w with cp := { w.cp with observe_event_source := 0 } }).2

/-- A sequence of dispatches, first input first. -/
def run (E : Env β) : World β → List Input → Option (World β)
  | w, [] => some w
  | w, i :: is =>
    match dispatch E w i with
    | none => none
    | some w1 => run E w1 is

/-! ## Reading a trace -/

/-- The number of `weston_set_cp` calls in a trace. -/
def set_cp_calls (t : List Effect) : Nat :=
  t.countP fun e => match e with
    | Effect.weston_set_cp _ _ _ => true
    | _ => false

/-- The number of `weston_get_cp` calls in a trace. -/
def get_cp_calls (t : List Effect) : Nat :=
  t.countP fun e => match e with
    | Effect.weston_get_cp _ _ _ => true
    | _ => false

/-- The number of status-changed events in a trace. -/
def status_events (t : List Effect) : Nat :=
  t.countP fun e => match e with
    | Effect.send_status_changed _ _ => true
    | _ => false

/-- The number of timer updates in a trace. -/
def timer_updates (t : List Effect) : Nat :=
  t.countP fun e => match e with
    | Effect.timer_update _ _ => true
    | _ => false

/-! ## A scripted backend, for concrete runs -/

/-- The answers a scripted backend still has to give: return codes of
`weston_set_cp`, and return code and `*enable` of `weston_get_cp`. -/
structure Script where
  set_rets : List Int
  get_rets : List (Int × Bool)
  deriving DecidableEq, Repr

/-- A backend that answers each call with the next entry of its script, and
with success (`0`, and `*enable = false`) once the script is used up.  The
enumerator values follow the client's `enum content_type`
(`TYPE0`, `TYPE1`, `UNPROTECTED = -1`). -/
def scripted : Env Script where
  weston_set_cp := fun s _ _ =>
    match s.set_rets with
    | [] => (0, s)
    | r :: rs => (r, { s with set_rets := rs })
  weston_get_cp := fun s _ =>
    match s.get_rets with
    | [] => (0, false, s)
    | g :: gs => (g.1, g.2, { s with get_rets := gs })
  CONTENT_PROTECTION_TYPE_UNPROTECTED := -1

/-- A script with no entries: every call succeeds and protection is never
reported enabled. -/
def idle : Script := { set_rets := [], get_rets := [] }

/-- The context after start-up and one accepted `desired` request for type 0:
status `CP_DESIRED`, type 0, retry timer armed. -/
def accepted0 : World Script := desired scripted (wet_module_init idle) 1 0

/-- The context after start-up and a `desired` request for type 0 that found
the protection already enabled: status `CP_ENABLED`, type 0, observer armed.
The backend will next report type 1 as not enabled and refuse to set it. -/
def enabled0 : World Script :=
  desired scripted (wet_module_init { set_rets := [-1], get_rets := [(0, true), (0, false)] }) 1 0

/-- The context after start-up and a `desired` request for type 0 that found
the protection already enabled, as `enabled0`.  The backend will report the
protection enabled once more and accept every set call. -/
def observed0 : World Script :=
  desired scripted (wet_module_init { set_rets := [], get_rets := [(0, true), (0, true)] }) 1 0

/-- As `observed0`, with a backend that will report the protection enabled
once more and answer the next set call with `-EBUSY`. -/
def observed_busy0 : World Script :=
  desired scripted
    (wet_module_init { set_rets := [-16], get_rets := [(0, true), (0, true)] }) 1 0

/-- The context after start-up and a `disable` request that found the
protection already off: status `CP_UNDESIRED`. -/
def undesired0 : World Script := disable scripted (wet_module_init idle) 1


/-! ## The retry cadence -/

/-- The retry cadence: the retry timer is left to expire again and again, at
most `fuel` times, until it is found disarmed.  Gives the number of expiries
that took place and the world reached. -/
def retry_cadence (E : Env β) : Nat → World β → Nat × World β
  | 0, w => (0, w)
  | fuel + 1, w =>
    match dispatch E w Input.RetryTick with
    | none => (0, w)
    | some w1 => ((retry_cadence E fuel w1).1 + 1, (retry_cadence E fuel w1).2)

/-- The number of expiries of the retry timer that can still arm it again:
with `retries_left` attempts left, the current window takes
`15 - num_sec_elapsed` waiting expiries and one escalation, and each of the
`retries_left - 1` further attempts fifteen waiting expiries and one
escalation. -/
def retry_budget (cp : content_protection_t) : Nat :=
  if cp.retries_left ≤ 0 then 0
  else 16 * (cp.retries_left.toNat - 1) + (15 - cp.num_sec_elapsed).toNat + 1

/-! ## A backend on which protection never comes up -/

/-- A backend without state: `weston_get_cp` always succeeds and reports the
protection as not enabled, `weston_set_cp` always succeeds. -/
def never_enabled : Env Unit where
  weston_set_cp := fun _ _ _ => (0, ())
  weston_get_cp := fun _ _ => (0, false, ())
  CONTENT_PROTECTION_TYPE_UNPROTECTED := -1

/-- The context after start-up and a `disable` request on `never_enabled`:
status `CP_UNDESIRED`, no timer armed. -/
def undesired_never : World Unit := disable never_enabled (wet_module_init ()) 1

/-- The context after start-up and a `desired` request for type 0 that found
the protection already enabled, as `enabled0`.  The next `weston_get_cp`
query of the backend will fail. -/
def observed_fail0 : World Script :=
  desired scripted (wet_module_init { set_rets := [], get_rets := [(0, true), (-1, true)] }) 1 0

/-- The context after start-up and one accepted `desired` request for type 0,
as `accepted0`.  The next `weston_get_cp` query of the backend will fail. -/
def accepted_fail0 : World Script :=
  desired scripted (wet_module_init { set_rets := [], get_rets := [(0, false), (-1, false)] }) 1 0

/-! ## The paths through each function

One lemma per path: the world a function returns, given what the backend
answers on that path. -/

theorem request_cp_state_eq (E : Env β) (w : World β) (cp_request type : Int) :
    request_cp_state E w cp_request type =
      ((E.weston_set_cp w.backend cp_request type).1,
       { w with
         backend := (E.weston_set_cp w.backend cp_request type).2,
         trace := w.trace ++
           [Effect.weston_set_cp cp_request type (E.weston_set_cp w.backend cp_request type).1] ++
           (if (E.weston_set_cp w.backend cp_request type).1 = -EBUSY then [Effect.sleep 1]
            else []) }) := by
  simp only [request_cp_state, request_cp_state_loop, call_set_cp, sleep]
  split <;> simp

theorem desired_guarded (E : Env β) (w : World β) (resource : Nat) (T : Int)
    (hs : w.cp.status = CP_DESIRED ∨ w.cp.status = CP_ENABLED) (ht : w.cp.type = T) :
    desired E w resource T = { w with cp := { w.cp with resource := resource } } := by
  simp [desired, hs, ht]

theorem desired_query_failed (E : Env β) (w : World β) (resource : Nat) (T ret : Int)
    (en : Bool) (b1 : β)
    (hguard : ¬((w.cp.status = CP_DESIRED ∨ w.cp.status = CP_ENABLED) ∧ w.cp.type = T))
    (hg : E.weston_get_cp w.backend T = (ret, en, b1)) (hret : ret < 0) :
    desired E w resource T =
      { cp := { w.cp with resource := resource },
        backend := b1,
        trace := w.trace ++ [Effect.weston_get_cp T ret en] } := by
  simp [desired, call_get_cp, hg, hret, hguard]

theorem desired_already_enabled (E : Env β) (w : World β) (resource : Nat) (T ret : Int)
    (b1 : β)
    (hguard : ¬((w.cp.status = CP_DESIRED ∨ w.cp.status = CP_ENABLED) ∧ w.cp.type = T))
    (hg : E.weston_get_cp w.backend T = (ret, true, b1)) (hret : 0 ≤ ret) :
    desired E w resource T =
      { cp := { w.cp with resource := resource, status := CP_ENABLED,
                          observe_event_source := 1000 },
        backend := b1,
        trace := w.trace ++ [Effect.weston_get_cp T ret true,
                             Effect.send_status_changed resource w.cp.type,
                             Effect.timer_update Timer.observe 1000] } := by
  simp [desired, call_get_cp, hg, not_lt.mpr hret, hguard, send_status_changed,
    wl_event_source_timer_update, OBSERVE_TIME_USEC]

theorem desired_set_failed (E : Env β) (w : World β) (resource : Nat) (T ret ret2 : Int)
    (b1 b2 : β)
    (hguard : ¬((w.cp.status = CP_DESIRED ∨ w.cp.status = CP_ENABLED) ∧ w.cp.type = T))
    (hg : E.weston_get_cp w.backend T = (ret, false, b1)) (hret : 0 ≤ ret)
    (hs : E.weston_set_cp b1 1 T = (ret2, b2)) (hret2 : ret2 < 0) :
    desired E w resource T =
      { cp := { w.cp with resource := resource, observe_event_source := 0 },
        backend := b2,
        trace := w.trace ++ [Effect.weston_get_cp T ret false,
                             Effect.timer_update Timer.observe 0,
                             Effect.weston_set_cp 1 T ret2] ++
                 (if ret2 = -EBUSY then [Effect.sleep 1] else []) } := by
  simp [desired, call_get_cp, hg, not_lt.mpr hret, hguard, wl_event_source_timer_update,
    request_cp_state_eq, cp_request_status.toInt, hs, hret2]

theorem desired_accepted (E : Env β) (w : World β) (resource : Nat) (T ret ret2 : Int)
    (b1 b2 : β)
    (hguard : ¬((w.cp.status = CP_DESIRED ∨ w.cp.status = CP_ENABLED) ∧ w.cp.type = T))
    (hg : E.weston_get_cp w.backend T = (ret, false, b1)) (hret : 0 ≤ ret)
    (hs : E.weston_set_cp b1 1 T = (ret2, b2)) (hret2 : 0 ≤ ret2) :
    desired E w resource T =
      { cp := { w.cp with resource := resource, status := CP_DESIRED, type := T,
                          retries_left := 3, observe_event_source := 0,
                          retry_event_source := 100 },
        backend := b2,
        trace := w.trace ++ [Effect.weston_get_cp T ret false,
                             Effect.timer_update Timer.observe 0,
                             Effect.weston_set_cp 1 T ret2,
                             Effect.timer_update Timer.retry 100] } := by
  have hb : ret2 ≠ -EBUSY := by simp [EBUSY]; omega
  simp [desired, call_get_cp, hg, not_lt.mpr hret, hguard, wl_event_source_timer_update,
    request_cp_state_eq, cp_request_status.toInt, hs, hb, not_lt.mpr hret2, MAX_USER_RETRY]

theorem disable_undesired (E : Env β) (w : World β) (resource : Nat)
    (hst : w.cp.status = CP_UNDESIRED) :
    disable E w resource = { w with cp := { w.cp with resource := resource } } := by
  simp [disable, hst]

theorem disable_query_failed (E : Env β) (w : World β) (resource : Nat) (ret : Int)
    (en : Bool) (b1 : β)
    (hst : w.cp.status ≠ CP_UNDESIRED)
    (hg : E.weston_get_cp w.backend 0 = (ret, en, b1)) (hret : ret < 0) :
    disable E w resource =
      { cp := { w.cp with resource := resource },
        backend := b1,
        trace := w.trace ++ [Effect.weston_get_cp 0 ret en] } := by
  simp [disable, call_get_cp, hg, hret, hst]

theorem disable_already_disabled (E : Env β) (w : World β) (resource : Nat) (ret : Int)
    (b1 : β)
    (hst : w.cp.status ≠ CP_UNDESIRED)
    (hg : E.weston_get_cp w.backend 0 = (ret, false, b1)) (hret : 0 ≤ ret) :
    disable E w resource =
      { cp := { w.cp with resource := resource, status := CP_UNDESIRED },
        backend := b1,
        trace := w.trace ++ [Effect.weston_get_cp 0 ret false] } := by
  simp [disable, call_get_cp, hg, not_lt.mpr hret, hst]

theorem disable_set_failed (E : Env β) (w : World β) (resource : Nat) (ret ret2 : Int)
    (b1 b2 : β)
    (hst : w.cp.status ≠ CP_UNDESIRED)
    (hg : E.weston_get_cp w.backend 0 = (ret, true, b1)) (hret : 0 ≤ ret)
    (hs : E.weston_set_cp b1 0 0 = (ret2, b2)) (hret2 : ret2 < 0) :
    disable E w resource =
      { cp := { w.cp with resource := resource },
        backend := b2,
        trace := w.trace ++ [Effect.weston_get_cp 0 ret true,
                             Effect.weston_set_cp 0 0 ret2] ++
                 (if ret2 = -EBUSY then [Effect.sleep 1] else []) } := by
  simp [disable, call_get_cp, hg, not_lt.mpr hret, hst, request_cp_state_eq,
    cp_request_status.toInt, hs, hret2]

theorem disable_done (E : Env β) (w : World β) (resource : Nat) (ret ret2 : Int)
    (b1 b2 : β)
    (hst : w.cp.status ≠ CP_UNDESIRED)
    (hg : E.weston_get_cp w.backend 0 = (ret, true, b1)) (hret : 0 ≤ ret)
    (hs : E.weston_set_cp b1 0 0 = (ret2, b2)) (hret2 : 0 ≤ ret2) :
    disable E w resource =
      { cp := { w.cp with resource := resource, status := CP_UNDESIRED,
                          observe_event_source := 0, retry_event_source := 0 },
        backend := b2,
        trace := w.trace ++ [Effect.weston_get_cp 0 ret true,
                             Effect.weston_set_cp 0 0 ret2,
                             Effect.send_status_changed resource
                               E.CONTENT_PROTECTION_TYPE_UNPROTECTED,
                             Effect.timer_update Timer.observe 0,
                             Effect.timer_update Timer.retry 0,
                             Effect.usleep 1] } := by
  have hb : ret2 ≠ -EBUSY := by simp [EBUSY]; omega
  simp [disable, call_get_cp, hg, not_lt.mpr hret, hst, request_cp_state_eq,
    cp_request_status.toInt, hs, hb, not_lt.mpr hret2, send_status_changed,
    wl_event_source_timer_update, usleep, WAIT_FOR_DISABLE_SEC]

/-! ## Claims -/

/-- Every call of `request_cp_state` makes exactly one `weston_set_cp` call
and returns that call's result, whatever the backend answers. -/
theorem request_cp_state_single_attempt (E : Env β) (w : World β) (cp_request type : Int) :
    (request_cp_state E w cp_request type).1 = (E.weston_set_cp w.backend cp_request type).1 ∧
    set_cp_calls (request_cp_state E w cp_request type).2.trace = set_cp_calls w.trace + 1 := by
  rw [request_cp_state_eq]
  refine ⟨rfl, ?_⟩
  by_cases h : (E.weston_set_cp w.backend cp_request type).1 = -EBUSY <;>
    simp [set_cp_calls, List.countP_append, List.countP_cons, h]

/-- C1, at a backend whose first `weston_set_cp` answers `-EBUSY` (-16) and
whose next answer would be success: `request_cp_state` makes one call, sleeps
one second, and returns `-EBUSY`; the second answer is never asked for.  The
claim's second attempt does not happen. -/
theorem request_cp_state_busy_not_retried :
    (request_cp_state scripted (wet_module_init { set_rets := [-16, 0], get_rets := [] })
        CP_DESIRED.toInt 0).1 = -EBUSY ∧
    (request_cp_state scripted (wet_module_init { set_rets := [-16, 0], get_rets := [] })
        CP_DESIRED.toInt 0).2.trace = [Effect.weston_set_cp 1 0 (-16), Effect.sleep 1] ∧
    (request_cp_state scripted (wet_module_init { set_rets := [-16, 0], get_rets := [] })
        CP_DESIRED.toInt 0).2.backend.set_rets = [0] := by
  decide

/-- C2: when the status is `CP_DESIRED` or `CP_ENABLED` and the stored type is
the requested one, `desired` does nothing but store the resource: the trace
is unchanged (no backend call, no event, no timer update), the backend is
untouched, and every other field of the context keeps its value. -/
theorem desired_idempotence_guard (E : Env β) (w : World β) (resource : Nat) (T : Int)
    (hs : w.cp.status = CP_DESIRED ∨ w.cp.status = CP_ENABLED) (ht : w.cp.type = T) :
    (desired E w resource T).trace = w.trace ∧
    (desired E w resource T).backend = w.backend ∧
    (desired E w resource T).cp.status = w.cp.status ∧
    (desired E w resource T).cp.type = w.cp.type ∧
    (desired E w resource T).cp.retries_left = w.cp.retries_left ∧
    (desired E w resource T).cp.num_sec_elapsed = w.cp.num_sec_elapsed ∧
    (desired E w resource T).cp.observe_event_source = w.cp.observe_event_source ∧
    (desired E w resource T).cp.retry_event_source = w.cp.retry_event_source ∧
    (desired E w resource T).cp.resource = resource := by
  rw [desired_guarded E w resource T hs ht]
  simp

/-- C2 at a concrete input: a second request for type 0, from another
resource, while type 0 is already desired. -/
theorem desired_idempotence_guard_witness :
    (accepted0.cp.status = CP_DESIRED ∨ accepted0.cp.status = CP_ENABLED) ∧
    accepted0.cp.type = 0 ∧
    (desired scripted accepted0 2 0).trace = accepted0.trace ∧
    (desired scripted accepted0 2 0).cp.retry_event_source = 100 ∧
    (desired scripted accepted0 2 0).cp.resource = 2 :=
  have h := desired_idempotence_guard scripted accepted0 2 0 (by decide) (by decide)
  ⟨by decide, by decide, h.1, h.2.2.2.2.2.2.2.1.trans (by decide), h.2.2.2.2.2.2.2.2⟩

/-- C3 as stated fails: (a) when type 0 is already desired, two further
`desired` requests for type 0 add nothing to the trace, so they make no
`weston_set_cp` call at all (zero, counted from an empty trace); (b) when the
backend refuses the set call, each of the two requests makes one, two in
total. -/
theorem desired_twice_counterexample :
    (desired scripted (desired scripted accepted0 1 0) 1 0).trace = accepted0.trace ∧
    set_cp_calls
      (desired scripted (desired scripted { accepted0 with trace := [] } 1 0) 1 0).trace = 0 ∧
    set_cp_calls (desired scripted (desired scripted
      (wet_module_init { set_rets := [-1, -1], get_rets := [] }) 1 0) 1 0).trace = 2 := by
  decide

/-- C3, amended: from a context the guard does not catch, when
`weston_get_cp` reports the type as not enabled and `weston_set_cp` succeeds,
two `desired` requests for that type in a row make exactly one `weston_set_cp`
call and send no status-changed event; the second request adds nothing to
the trace, leaves the backend untouched and changes the context left by the
first request in the resource field only. -/
theorem desired_twice_fresh (E : Env β) (w : World β) (r1 r2 : Nat) (T ret ret2 : Int)
    (b1 b2 : β)
    (hguard : ¬((w.cp.status = CP_DESIRED ∨ w.cp.status = CP_ENABLED) ∧ w.cp.type = T))
    (hg : E.weston_get_cp w.backend T = (ret, false, b1)) (hret : 0 ≤ ret)
    (hs : E.weston_set_cp b1 1 T = (ret2, b2)) (hret2 : 0 ≤ ret2) :
    set_cp_calls (desired E (desired E w r1 T) r2 T).trace = set_cp_calls w.trace + 1 ∧
    status_events (desired E (desired E w r1 T) r2 T).trace = status_events w.trace ∧
    (desired E (desired E w r1 T) r2 T).trace = (desired E w r1 T).trace ∧
    (desired E (desired E w r1 T) r2 T).backend = (desired E w r1 T).backend ∧
    (desired E (desired E w r1 T) r2 T).cp =
      { (desired E w r1 T).cp with resource := r2 } ∧
    (desired E (desired E w r1 T) r2 T).cp =
      { status := CP_DESIRED, type := T, observe_event_source := 0,
        retry_event_source := 100, resource := r2, retries_left := 3,
        num_sec_elapsed := w.cp.num_sec_elapsed } := by
  have h1 := desired_accepted E w r1 T ret ret2 b1 b2 hguard hg hret hs hret2
  have h2 : desired E (desired E w r1 T) r2 T =
      { (desired E w r1 T) with cp := { (desired E w r1 T).cp with resource := r2 } } := by
    apply desired_guarded
    · left; rw [h1]
    · rw [h1]
  rw [h2]
  simp only [and_true, true_and]
  rw [h1]
  simp [set_cp_calls, status_events, List.countP_append, List.countP_cons]

/-- C3, amended, at a concrete input: two requests for type 0 right after
start-up, against a backend that accepts the set call. -/
theorem desired_twice_fresh_witness :
    ¬(((wet_module_init idle).cp.status = CP_DESIRED ∨
        (wet_module_init idle).cp.status = CP_ENABLED) ∧ (wet_module_init idle).cp.type = 0) ∧
    set_cp_calls (desired scripted (desired scripted (wet_module_init idle) 1 0) 2 0).trace = 1 ∧
    status_events (desired scripted (desired scripted (wet_module_init idle) 1 0) 2 0).trace
      = 0 ∧
    (desired scripted (desired scripted (wet_module_init idle) 1 0) 2 0).cp =
      { status := CP_DESIRED, type := 0, observe_event_source := 0,
        retry_event_source := 100, resource := 2, retries_left := 3, num_sec_elapsed := 0 } :=
  have h := desired_twice_fresh scripted (wet_module_init idle) 1 2 0 0 0 idle idle
    (by decide) rfl (by decide) rfl (by decide)
  ⟨by decide, h.1, h.2.1, h.2.2.2.2.2⟩

/-- C4, at the context left by start-up (stored type 0) and a request for
type 1 that the backend reports as already enabled: the status becomes
`CP_ENABLED`, the observer is armed with 1000 and no `weston_set_cp` call is
made, but the one status-changed event carries the stored type 0, not the
requested type 1, and the stored type stays 0. -/
theorem desired_already_enabled_sends_stored_type :
    (desired scripted (wet_module_init { set_rets := [], get_rets := [(0, true)] }) 1 1).trace =
      [Effect.weston_get_cp 1 0 true, Effect.send_status_changed 1 0,
       Effect.timer_update Timer.observe 1000] ∧
    (desired scripted (wet_module_init { set_rets := [], get_rets := [(0, true)] }) 1 1).cp =
      { status := CP_ENABLED, type := 0, observe_event_source := 1000,
        retry_event_source := 0, resource := 1, retries_left := 3, num_sec_elapsed := 0 } := by
  decide

/-- C5, along a run from start-up: type 0 is requested and accepted, the retry
timer expires seven times without the protection coming up (so
`num_sec_elapsed` is 7), then type 1 is requested and accepted.  The request
ends with status `CP_DESIRED`, type 1, `retries_left = 3`, the observer
disarmed and the retry timer armed with 100, but `num_sec_elapsed` is still 7,
not 0. -/
theorem desired_keeps_num_sec_elapsed :
    (run scripted (wet_module_init idle)
      [Input.Desired 1 0, Input.RetryTick, Input.RetryTick, Input.RetryTick, Input.RetryTick,
       Input.RetryTick, Input.RetryTick, Input.RetryTick, Input.Desired 1 1]).map (fun w => w.cp) =
      some { status := CP_DESIRED, type := 1, observe_event_source := 0,
             retry_event_source := 100, resource := 1, retries_left := 3,
             num_sec_elapsed := 7 } := by
  decide

/-- C6 as stated fails: with type 0 enabled and the observer armed, a request
for type 1 that the backend reports as not enabled and then refuses to set
leaves the status `CP_ENABLED` and sends no event, but the observer timer,
armed before the call, is disarmed after it. -/
theorem desired_failure_counterexample :
    enabled0.cp.status = CP_ENABLED ∧
    enabled0.cp.observe_event_source = 1000 ∧
    (desired scripted enabled0 1 1).trace = enabled0.trace ++
      [Effect.weston_get_cp 1 0 false, Effect.timer_update Timer.observe 0,
       Effect.weston_set_cp 1 1 (-1)] ∧
    (desired scripted enabled0 1 1).cp.status = CP_ENABLED ∧
    (desired scripted enabled0 1 1).cp.observe_event_source = 0 := by
  decide

/-- C6, amended: when the `weston_get_cp` query of a `desired` request fails,
or reports the type as not enabled and the `weston_set_cp` call then fails, the
request sends no status-changed event and leaves the status, the stored type,
`retries_left`, `num_sec_elapsed` and the retry timer as they were.  The
observer timer is as it was when the guard caught the request or the query
failed, and is disarmed otherwise (it is disarmed before the set call). -/
theorem desired_failure_frame (E : Env β) (w : World β) (resource : Nat) (T ret : Int)
    (en : Bool) (b1 : β)
    (hg : E.weston_get_cp w.backend T = (ret, en, b1))
    (hfail : ret < 0 ∨ (0 ≤ ret ∧ en = false ∧ (E.weston_set_cp b1 1 T).1 < 0)) :
    status_events (desired E w resource T).trace = status_events w.trace ∧
    (desired E w resource T).cp.status = w.cp.status ∧
    (desired E w resource T).cp.type = w.cp.type ∧
    (desired E w resource T).cp.retries_left = w.cp.retries_left ∧
    (desired E w resource T).cp.num_sec_elapsed = w.cp.num_sec_elapsed ∧
    (desired E w resource T).cp.retry_event_source = w.cp.retry_event_source ∧
    (desired E w resource T).cp.observe_event_source =
      (if ((w.cp.status = CP_DESIRED ∨ w.cp.status = CP_ENABLED) ∧ w.cp.type = T) ∨ ret < 0
       then w.cp.observe_event_source else 0) := by
  by_cases hguard : (w.cp.status = CP_DESIRED ∨ w.cp.status = CP_ENABLED) ∧ w.cp.type = T
  · rw [desired_guarded E w resource T hguard.1 hguard.2]
    simp [hguard]
  · rcases hfail with hret | ⟨hret, hen, hset⟩
    · rw [desired_query_failed E w resource T ret en b1 hguard hg hret]
      simp [hret, status_events, List.countP_append, List.countP_cons]
    · subst hen
      rw [desired_set_failed E w resource T ret (E.weston_set_cp b1 1 T).1
        b1 (E.weston_set_cp b1 1 T).2 hguard hg hret rfl hset]
      by_cases hb : (E.weston_set_cp b1 1 T).1 = -EBUSY <;>
        simp [hguard, not_lt.mpr hret, status_events, List.countP_append, List.countP_cons, hb]

/-- C6, amended, at a concrete input: type 0 enabled, the request for type 1
is refused by the backend. -/
theorem desired_failure_frame_witness :
    scripted.weston_get_cp enabled0.backend 1 = (0, false, { set_rets := [-1], get_rets := [] }) ∧
    (scripted.weston_set_cp { set_rets := [-1], get_rets := [] } 1 1).1 < 0 ∧
    status_events (desired scripted enabled0 1 1).trace = status_events enabled0.trace ∧
    (desired scripted enabled0 1 1).cp.status = CP_ENABLED ∧
    (desired scripted enabled0 1 1).cp.type = 0 ∧
    (desired scripted enabled0 1 1).cp.observe_event_source = 0 :=
  have h := desired_failure_frame scripted enabled0 1 1 0 false
    { set_rets := [-1], get_rets := [] } rfl (Or.inr ⟨by decide, rfl, by decide⟩)
  ⟨rfl, by decide, h.1, h.2.1.trans (by decide), h.2.2.1.trans (by decide),
    h.2.2.2.2.2.2.trans (by decide)⟩

/-- C7: when the status is `CP_UNDESIRED`, `disable` does nothing but store
the resource: the trace is unchanged (no backend call, no event, no timer
update), the backend is untouched, and the status, the stored type, both
counters and both timers keep their values. -/
theorem disable_noop_when_undesired (E : Env β) (w : World β) (resource : Nat)
    (hst : w.cp.status = CP_UNDESIRED) :
    (disable E w resource).trace = w.trace ∧
    (disable E w resource).backend = w.backend ∧
    (disable E w resource).cp = { w.cp with resource := resource } := by
  rw [disable_undesired E w resource hst]
  simp

/-- C7 at a concrete input: a second `disable` request after one that found
the protection already off. -/
theorem disable_noop_when_undesired_witness :
    undesired0.cp.status = CP_UNDESIRED ∧
    (disable scripted undesired0 2).trace = undesired0.trace ∧
    (disable scripted undesired0 2).cp =
      { status := CP_UNDESIRED, type := 0, observe_event_source := 0, retry_event_source := 0,
        resource := 2, retries_left := 3, num_sec_elapsed := 0 } :=
  have h := disable_noop_when_undesired scripted undesired0 2 (by decide)
  ⟨by decide, h.1, h.2.2.trans (by decide)⟩

/-- C8: from a status other than `CP_UNDESIRED`, when `weston_get_cp` succeeds
and reports the protection enabled and the `weston_set_cp` call that turns it
off succeeds, `disable` ends with status `CP_UNDESIRED` and both timers
disarmed, and sends exactly one status-changed event, which carries
`CONTENT_PROTECTION_TYPE_UNPROTECTED`. -/
theorem disable_success (E : Env β) (w : World β) (resource : Nat) (ret ret2 : Int)
    (b1 b2 : β)
    (hst : w.cp.status ≠ CP_UNDESIRED)
    (hg : E.weston_get_cp w.backend 0 = (ret, true, b1)) (hret : 0 ≤ ret)
    (hs : E.weston_set_cp b1 0 0 = (ret2, b2)) (hret2 : 0 ≤ ret2) :
    (disable E w resource).cp.status = CP_UNDESIRED ∧
    (disable E w resource).cp.observe_event_source = 0 ∧
    (disable E w resource).cp.retry_event_source = 0 ∧
    status_events (disable E w resource).trace = status_events w.trace + 1 ∧
    (disable E w resource).trace = w.trace ++
      [Effect.weston_get_cp 0 ret true,
       Effect.weston_set_cp 0 0 ret2,
       Effect.send_status_changed resource E.CONTENT_PROTECTION_TYPE_UNPROTECTED,
       Effect.timer_update Timer.observe 0,
       Effect.timer_update Timer.retry 0,
       Effect.usleep 1] := by
  rw [disable_done E w resource ret ret2 b1 b2 hst hg hret hs hret2]
  simp [status_events, List.countP_append, List.countP_cons]

/-- C8 at a concrete input: a `disable` request while type 0 is enabled and
observed, against a backend that reports it enabled and turns it off. -/
theorem disable_success_witness :
    observed0.cp.status ≠ CP_UNDESIRED ∧
    observed0.cp.observe_event_source = 1000 ∧
    (disable scripted observed0 1).cp.status = CP_UNDESIRED ∧
    (disable scripted observed0 1).cp.observe_event_source = 0 ∧
    (disable scripted observed0 1).cp.retry_event_source = 0 ∧
    status_events (disable scripted observed0 1).trace = status_events observed0.trace + 1 :=
  have h := disable_success scripted observed0 1 0 0 idle idle
    (by decide) rfl (by decide) rfl (by decide)
  ⟨by decide, by decide, h.1, h.2.1, h.2.2.1, h.2.2.2.1⟩

/-- C9: from a status other than `CP_UNDESIRED`, when the `weston_get_cp` query
of a `disable` request fails, or reports the protection enabled and the
`weston_set_cp` call then fails, the request sends no status-changed event,
updates no timer, and leaves every field of the context but the resource
(the status, the stored type, both counters, both timers) as it was. -/
theorem disable_failure_atomic (E : Env β) (w : World β) (resource : Nat) (ret : Int)
    (en : Bool) (b1 : β)
    (hst : w.cp.status ≠ CP_UNDESIRED)
    (hg : E.weston_get_cp w.backend 0 = (ret, en, b1))
    (hfail : ret < 0 ∨ (0 ≤ ret ∧ en = true ∧ (E.weston_set_cp b1 0 0).1 < 0)) :
    (disable E w resource).cp = { w.cp with resource := resource } ∧
    status_events (disable E w resource).trace = status_events w.trace ∧
    timer_updates (disable E w resource).trace = timer_updates w.trace := by
  rcases hfail with hret | ⟨hret, hen, hset⟩
  · rw [disable_query_failed E w resource ret en b1 hst hg hret]
    simp [status_events, timer_updates, List.countP_append, List.countP_cons]
  · subst hen
    rw [disable_set_failed E w resource ret (E.weston_set_cp b1 0 0).1
      b1 (E.weston_set_cp b1 0 0).2 hst hg hret rfl hset]
    by_cases hb : (E.weston_set_cp b1 0 0).1 = -EBUSY <;>
      simp [status_events, timer_updates, List.countP_append, List.countP_cons, hb]

/-- C9 at a concrete input: type 0 is enabled and observed, the backend
reports the protection enabled and answers the set call with `-EBUSY`. -/
theorem disable_failure_atomic_witness :
    observed_busy0.cp.status ≠ CP_UNDESIRED ∧
    (disable scripted observed_busy0 2).cp =
      { status := CP_ENABLED, type := 0, observe_event_source := 1000, retry_event_source := 0,
        resource := 2, retries_left := 3, num_sec_elapsed := 0 } ∧
    status_events (disable scripted observed_busy0 2).trace =
      status_events observed_busy0.trace :=
  have h := disable_failure_atomic scripted observed_busy0 2 0 true
    { set_rets := [-16], get_rets := [] } (by decide) rfl
    (Or.inr ⟨by decide, rfl, by decide⟩)
  ⟨by decide, h.1.trans (by decide), h.2.1⟩

/-- C10, along a run from start-up: type 0 is requested and accepted, which
arms the retry timer; then type 1 is requested and the backend reports it
already enabled, which arms the observer and leaves the retry timer armed.
Both timers are armed in the state reached. -/
theorem both_timers_armed_reachable :
    (run scripted (wet_module_init { set_rets := [], get_rets := [(0, false), (0, true)] })
      [Input.Desired 1 0, Input.Desired 1 1]).map (fun w => w.cp) =
      some { status := CP_ENABLED, type := 0, observe_event_source := 1000,
             retry_event_source := 100, resource := 1, retries_left := 3,
             num_sec_elapsed := 0 } := by
  decide

/-! ## The paths through the timer callbacks -/

theorem retry_exhausted (E : Env β) (w : World β) (hr : w.cp.retries_left ≤ 0) :
    retry_cp E w = (-1, w) := by
  simp [retry_cp, hr]

theorem retry_query_failed (E : Env β) (w : World β) (ret : Int) (en : Bool) (b1 : β)
    (hr : 0 < w.cp.retries_left)
    (hg : E.weston_get_cp w.backend w.cp.type = (ret, en, b1)) (hret : ret < 0) :
    retry_cp E w =
      (-1, { cp := { w.cp with status := CP_FAILED },
             backend := b1,
             trace := w.trace ++ [Effect.weston_get_cp w.cp.type ret en] }) := by
  simp [retry_cp, call_get_cp, hg, hret, not_le.mpr hr]

theorem retry_confirmed (E : Env β) (w : World β) (ret : Int) (b1 : β)
    (hr : 0 < w.cp.retries_left)
    (hg : E.weston_get_cp w.backend w.cp.type = (ret, true, b1)) (hret : 0 ≤ ret) :
    retry_cp E w =
      (0, { cp := { w.cp with status := CP_ENABLED, observe_event_source := 1000 },
            backend := b1,
            trace := w.trace ++ [Effect.weston_get_cp w.cp.type ret true,
                                 Effect.send_status_changed w.cp.resource w.cp.type,
                                 Effect.timer_update Timer.observe 1000] }) := by
  simp [retry_cp, call_get_cp, hg, not_lt.mpr hret, not_le.mpr hr, send_status_changed,
    wl_event_source_timer_update, OBSERVE_TIME_USEC]

theorem retry_waits (E : Env β) (w : World β) (ret : Int) (b1 : β)
    (hr : 0 < w.cp.retries_left)
    (hg : E.weston_get_cp w.backend w.cp.type = (ret, false, b1)) (hret : 0 ≤ ret)
    (he : w.cp.num_sec_elapsed < 15) :
    retry_cp E w =
      (0, { cp := { w.cp with num_sec_elapsed := w.cp.num_sec_elapsed + 1,
                              retry_event_source := 1000 },
            backend := b1,
            trace := w.trace ++ [Effect.weston_get_cp w.cp.type ret false,
                                 Effect.timer_update Timer.retry 1000] }) := by
  simp [retry_cp, call_get_cp, hg, not_lt.mpr hret, not_le.mpr hr,
    wl_event_source_timer_update, MAX_USER_RETRY, he]

theorem retry_escalation_failed (E : Env β) (w : World β) (ret ret2 : Int) (b1 b2 : β)
    (hr : 0 < w.cp.retries_left)
    (hg : E.weston_get_cp w.backend w.cp.type = (ret, false, b1)) (hret : 0 ≤ ret)
    (he : 15 ≤ w.cp.num_sec_elapsed)
    (hs : E.weston_set_cp b1 1 w.cp.type = (ret2, b2)) (hret2 : ret2 < 0) :
    retry_cp E w =
      (-1, { cp := w.cp,
             backend := b2,
             trace := w.trace ++ [Effect.weston_get_cp w.cp.type ret false,
                                  Effect.weston_set_cp 1 w.cp.type ret2] ++
                      (if ret2 = -EBUSY then [Effect.sleep 1] else []) }) := by
  simp [retry_cp, call_get_cp, hg, not_lt.mpr hret, not_le.mpr hr, MAX_USER_RETRY,
    not_lt.mpr he, request_cp_state_eq, cp_request_status.toInt, hs, hret2]

theorem retry_escalated (E : Env β) (w : World β) (ret ret2 : Int) (b1 b2 : β)
    (hr : 0 < w.cp.retries_left)
    (hg : E.weston_get_cp w.backend w.cp.type = (ret, false, b1)) (hret : 0 ≤ ret)
    (he : 15 ≤ w.cp.num_sec_elapsed)
    (hs : E.weston_set_cp b1 1 w.cp.type = (ret2, b2)) (hret2 : 0 ≤ ret2) :
    retry_cp E w =
      (0, { cp := { w.cp with retries_left := w.cp.retries_left - 1, num_sec_elapsed := 0,
                              retry_event_source := 1000 },
            backend := b2,
            trace := w.trace ++ [Effect.weston_get_cp w.cp.type ret false,
                                 Effect.weston_set_cp 1 w.cp.type ret2,
                                 Effect.timer_update Timer.retry 1000] }) := by
  have hb : ret2 ≠ -EBUSY := by simp [EBUSY]; omega
  simp [retry_cp, call_get_cp, hg, not_lt.mpr hret, not_le.mpr hr, MAX_USER_RETRY,
    not_lt.mpr he, request_cp_state_eq, cp_request_status.toInt, hs, not_lt.mpr hret2, hb,
    wl_event_source_timer_update]

theorem observe_query_failed (E : Env β) (w : World β) (ret : Int) (en : Bool) (b1 : β)
    (hg : E.weston_get_cp w.backend w.cp.type = (ret, en, b1)) (hret : ret < 0) :
    observe_cp_state E w =
      (-1, { cp := w.cp,
             backend := b1,
             trace := w.trace ++ [Effect.weston_get_cp w.cp.type ret en] }) := by
  simp [observe_cp_state, call_get_cp, hg, hret]

theorem observe_still_enabled (E : Env β) (w : World β) (ret : Int) (b1 : β)
    (hst : w.cp.status = CP_ENABLED)
    (hg : E.weston_get_cp w.backend w.cp.type = (ret, true, b1)) (hret : 0 ≤ ret) :
    observe_cp_state E w =
      (0, { cp := { w.cp with observe_event_source := 1000 },
            backend := b1,
            trace := w.trace ++ [Effect.weston_get_cp w.cp.type ret true,
                                 Effect.timer_update Timer.observe 1000] }) := by
  simp [observe_cp_state, call_get_cp, hg, not_lt.mpr hret, hst,
    wl_event_source_timer_update, OBSERVE_TIME_USEC]

theorem observe_lost (E : Env β) (w : World β) (ret : Int) (b1 : β)
    (hst : w.cp.status = CP_ENABLED)
    (hg : E.weston_get_cp w.backend w.cp.type = (ret, false, b1)) (hret : 0 ≤ ret) :
    observe_cp_state E w =
      (0, { cp := { w.cp with status := CP_FAILED },
            backend := b1,
            trace := w.trace ++ [Effect.weston_get_cp w.cp.type ret false,
                                 Effect.send_status_changed w.cp.resource
                                   E.CONTENT_PROTECTION_TYPE_UNPROTECTED] }) := by
  simp [observe_cp_state, call_get_cp, hg, not_lt.mpr hret, hst, send_status_changed]

theorem observe_other_status (E : Env β) (w : World β) (ret : Int) (en : Bool) (b1 : β)
    (hst : w.cp.status ≠ CP_ENABLED)
    (hg : E.weston_get_cp w.backend w.cp.type = (ret, en, b1)) (hret : 0 ≤ ret) :
    observe_cp_state E w =
      (0, { cp := w.cp,
            backend := b1,
            trace := w.trace ++ [Effect.weston_get_cp w.cp.type ret en] }) := by
  simp [observe_cp_state, call_get_cp, hg, not_lt.mpr hret, hst]

/-! ## The retry cadence, expiry by expiry -/

/-- The callback of the retry timer, run with its timer disarmed (as it is
when the timer has just expired), whatever the backend answers: either the
timer is left disarmed, or it is armed again and the budget went down by one.
The `weston_set_cp` calls made never exceed the retries given up. -/
theorem retry_tick_step (E : Env β) (w : World β) (h0 : w.cp.retry_event_source = 0) :
    ((retry_cp E w).2.cp.retry_event_source = 0 ∧
      set_cp_calls (retry_cp E w).2.trace ≤ set_cp_calls w.trace + w.cp.retries_left.toNat) ∨
    ((retry_cp E w).2.cp.retry_event_source ≠ 0 ∧
      retry_budget (retry_cp E w).2.cp + 1 = retry_budget w.cp ∧
      set_cp_calls (retry_cp E w).2.trace + (retry_cp E w).2.cp.retries_left.toNat
        ≤ set_cp_calls w.trace + w.cp.retries_left.toNat) := by
  by_cases hr : w.cp.retries_left ≤ 0
  · left
    rw [retry_exhausted E w hr]
    simp [h0]
  · have hr' : 0 < w.cp.retries_left := not_le.mp hr
    obtain ⟨ret, en, b1, hg⟩ : ∃ ret en b1, E.weston_get_cp w.backend w.cp.type = (ret, en, b1) :=
      ⟨_, _, _, rfl⟩
    by_cases hret : ret < 0
    · left
      rw [retry_query_failed E w ret en b1 hr' hg hret]
      simp [set_cp_calls, List.countP_append, List.countP_cons, h0]
    · have hret' : 0 ≤ ret := not_lt.mp hret
      cases en with
      | true =>
        left
        rw [retry_confirmed E w ret b1 hr' hg hret']
        simp [set_cp_calls, List.countP_append, List.countP_cons, h0]
      | false =>
        by_cases he : w.cp.num_sec_elapsed < 15
        · right
          rw [retry_waits E w ret b1 hr' hg hret' he]
          simp [set_cp_calls, List.countP_append, List.countP_cons, retry_budget, hr]
          omega
        · have he' : 15 ≤ w.cp.num_sec_elapsed := not_lt.mp he
          obtain ⟨ret2, b2, hs⟩ : ∃ ret2 b2, E.weston_set_cp b1 1 w.cp.type = (ret2, b2) :=
            ⟨_, _, rfl⟩
          by_cases hret2 : ret2 < 0
          · left
            rw [retry_escalation_failed E w ret ret2 b1 b2 hr' hg hret' he' hs hret2]
            by_cases hb : ret2 = -EBUSY <;>
              simp [set_cp_calls, List.countP_append, List.countP_cons, hb, h0] <;> omega
          · right
            rw [retry_escalated E w ret ret2 b1 b2 hr' hg hret' he' hs (not_lt.mp hret2)]
            simp [set_cp_calls, List.countP_append, List.countP_cons, retry_budget, hr]
            constructor
            · split <;> omega
            · omega

/-- The budget does not depend on the timers. -/
theorem retry_budget_disarm (cp : content_protection_t) :
    retry_budget { cp with retry_event_source := 0 } = retry_budget cp := rfl

/-- With the retry timer disarmed no expiry takes place. -/
theorem retry_cadence_disarmed (E : Env β) (fuel : Nat) (w : World β)
    (h0 : w.cp.retry_event_source = 0) : retry_cadence E fuel w = (0, w) := by
  cases fuel <;> simp [retry_cadence, dispatch, h0]

/-- With the retry timer armed the cadence starts with one expiry. -/
theorem retry_cadence_armed (E : Env β) (fuel : Nat) (w : World β)
    (h1 : w.cp.retry_event_source ≠ 0) :
    retry_cadence E (fuel + 1) w =
      ((retry_cadence E fuel
          (retry_cp E { w with cp := { w.cp with retry_event_source := 0 } }).2).1 + 1,
       (retry_cadence E fuel
          (retry_cp E { w with cp := { w.cp with retry_event_source := 0 } }).2).2) := by
  simp [retry_cadence, dispatch, h1]

/-- The retry cadence under any backend: it takes at most `retry_budget + 1`
expiries, after that many the timer is disarmed, and it makes at most
`retries_left` calls of `weston_set_cp`. -/
theorem retry_cadence_bound (E : Env β) : ∀ (fuel : Nat) (w : World β),
    (retry_cadence E fuel w).1 ≤ retry_budget w.cp + 1 ∧
    (retry_budget w.cp + 1 ≤ fuel → (retry_cadence E fuel w).2.cp.retry_event_source = 0) ∧
    set_cp_calls (retry_cadence E fuel w).2.trace
      ≤ set_cp_calls w.trace + w.cp.retries_left.toNat := by
  intro fuel
  induction fuel with
  | zero =>
    intro w
    simp [retry_cadence]
  | succ fuel ih =>
    intro w
    by_cases h0 : w.cp.retry_event_source = 0
    · rw [retry_cadence_disarmed E _ w h0]
      simp [h0]
    · rw [retry_cadence_armed E fuel w h0]
      have hstep := retry_tick_step E { w with cp := { w.cp with retry_event_source := 0 } } rfl
      rw [retry_budget_disarm] at hstep
      rcases hstep with ⟨hd, hc⟩ | ⟨_, hb, hc⟩
      · rw [retry_cadence_disarmed E fuel _ hd]
        exact ⟨by simp, fun _ => hd, hc⟩
      · have h := ih (retry_cp E { w with cp := { w.cp with retry_event_source := 0 } }).2
        refine ⟨by omega, fun hf => h.2.1 (by omega), ?_⟩
        exact le_trans h.2.2 hc

/-- The callback of the retry timer against a backend that never reports the
protection enabled and accepts every set call, with retries left: the timer
is armed again, the budget goes down by one, every `weston_set_cp` call is
paid for by one retry, and nothing else changes. -/
theorem retry_tick_never_enabled (E : Env β) (w : World β)
    (hget : ∀ b t, 0 ≤ (E.weston_get_cp b t).1 ∧ (E.weston_get_cp b t).2.1 = false)
    (hset : ∀ b r t, 0 ≤ (E.weston_set_cp b r t).1)
    (hr : 0 < w.cp.retries_left) :
    (retry_cp E w).2.cp.retry_event_source = 1000 ∧
    retry_budget (retry_cp E w).2.cp + 1 = retry_budget w.cp ∧
    0 ≤ (retry_cp E w).2.cp.retries_left ∧
    set_cp_calls (retry_cp E w).2.trace + (retry_cp E w).2.cp.retries_left.toNat
      = set_cp_calls w.trace + w.cp.retries_left.toNat ∧
    status_events (retry_cp E w).2.trace = status_events w.trace ∧
    (retry_cp E w).2.cp.status = w.cp.status ∧
    (retry_cp E w).2.cp.type = w.cp.type ∧
    (retry_cp E w).2.cp.observe_event_source = w.cp.observe_event_source := by
  obtain ⟨ret, en, b1, hg⟩ : ∃ ret en b1, E.weston_get_cp w.backend w.cp.type = (ret, en, b1) :=
    ⟨_, _, _, rfl⟩
  have hgw := hget w.backend w.cp.type
  rw [hg] at hgw
  obtain ⟨hret, hen⟩ := hgw
  simp only at hret hen
  subst hen
  by_cases he : w.cp.num_sec_elapsed < 15
  · rw [retry_waits E w ret b1 hr hg hret he]
    simp [set_cp_calls, status_events, List.countP_append, List.countP_cons, retry_budget,
      not_le.mpr hr]
    omega
  · have he' : 15 ≤ w.cp.num_sec_elapsed := not_lt.mp he
    obtain ⟨ret2, b2, hs⟩ : ∃ ret2 b2, E.weston_set_cp b1 1 w.cp.type = (ret2, b2) :=
      ⟨_, _, rfl⟩
    have hsw := hset b1 1 w.cp.type
    rw [hs] at hsw
    simp only at hsw
    rw [retry_escalated E w ret ret2 b1 b2 hr hg hret he' hs hsw]
    simp [set_cp_calls, status_events, List.countP_append, List.countP_cons, retry_budget,
      not_le.mpr hr]
    refine ⟨?_, by omega, by omega⟩
    split <;> omega

/-- The retry cadence against a backend that never reports the protection
enabled and accepts every set call: given fuel for `retry_budget + 1`
expiries, exactly that many take place, the timer ends disarmed with no retry
left, every retry was spent on one `weston_set_cp` call, and no event was
sent. -/
theorem retry_cadence_never_enabled (E : Env β)
    (hget : ∀ b t, 0 ≤ (E.weston_get_cp b t).1 ∧ (E.weston_get_cp b t).2.1 = false)
    (hset : ∀ b r t, 0 ≤ (E.weston_set_cp b r t).1) :
    ∀ (fuel : Nat) (w : World β), w.cp.retry_event_source ≠ 0 → 0 ≤ w.cp.retries_left →
      retry_budget w.cp + 1 ≤ fuel →
      (retry_cadence E fuel w).1 = retry_budget w.cp + 1 ∧
      (retry_cadence E fuel w).2.cp.retry_event_source = 0 ∧
      (retry_cadence E fuel w).2.cp.retries_left = 0 ∧
      set_cp_calls (retry_cadence E fuel w).2.trace
        = set_cp_calls w.trace + w.cp.retries_left.toNat ∧
      status_events (retry_cadence E fuel w).2.trace = status_events w.trace ∧
      (retry_cadence E fuel w).2.cp.status = w.cp.status ∧
      (retry_cadence E fuel w).2.cp.type = w.cp.type ∧
      (retry_cadence E fuel w).2.cp.observe_event_source = w.cp.observe_event_source := by
  intro fuel
  induction fuel with
  | zero => intro w _ _ hf; omega
  | succ fuel ih =>
    intro w h1 hr hf
    rw [retry_cadence_armed E fuel w h1]
    by_cases hr0 : w.cp.retries_left ≤ 0
    · have hz : w.cp.retries_left = 0 := le_antisymm hr0 hr
      rw [retry_exhausted E { w with cp := { w.cp with retry_event_source := 0 } } hr0,
        retry_cadence_disarmed E fuel _ rfl]
      simp [retry_budget, hr0, hz]
    · have hstep := retry_tick_never_enabled E
        { w with cp := { w.cp with retry_event_source := 0 } } hget hset (not_le.mp hr0)
      rw [retry_budget_disarm] at hstep
      obtain ⟨ha, hb, hr1, hc, hev, hst, hty, hob⟩ := hstep
      have h := ih (retry_cp E { w with cp := { w.cp with retry_event_source := 0 } }).2
        (by rw [ha]; decide) hr1 (by omega)
      obtain ⟨i1, i2, i3, i4, i5, i6, i7, i8⟩ := h
      refine ⟨by omega, i2, i3, ?_, i5.trans hev, i6.trans hst, i7.trans hty, i8.trans hob⟩
      rw [i4]; exact hc

/-! ## Claims on the timers and the negotiation -/

/-- C11, along a run from start-up: type 0 is requested and accepted, which
arms the retry timer; then `disable` is requested and the backend reports the
protection as already off.  The status becomes `CP_UNDESIRED` and the retry
timer is still armed. -/
theorem undesired_with_armed_timer_reachable :
    (run scripted (wet_module_init idle) [Input.Desired 1 0, Input.Disable 1]).map
      (fun w => w.cp) =
      some { status := CP_UNDESIRED, type := 0, observe_event_source := 0,
             retry_event_source := 100, resource := 1, retries_left := 3,
             num_sec_elapsed := 0 } := by
  decide

/-- C12, along a run from start-up: type 1 is requested, accepted and
confirmed by the first expiry of the retry timer (status `CP_ENABLED`, the
query was made for the stored type 1); then type 0 is requested and the
backend reports it enabled.  The status is set to `CP_ENABLED` on a query made
for type 0, while the stored type at the end is still 1. -/
theorem enabled_on_query_for_other_type :
    (run scripted
        (wet_module_init { set_rets := [], get_rets := [(0, false), (0, true), (0, true)] })
        [Input.Desired 1 1, Input.RetryTick, Input.Desired 1 0]).map
      (fun w => (w.cp.status, w.cp.type, w.trace)) =
      some (CP_ENABLED, 1,
        [Effect.weston_get_cp 1 0 false, Effect.timer_update Timer.observe 0,
         Effect.weston_set_cp 1 1 0, Effect.timer_update Timer.retry 100,
         Effect.weston_get_cp 1 0 true, Effect.send_status_changed 1 1,
         Effect.timer_update Timer.observe 1000,
         Effect.weston_get_cp 0 0 true, Effect.send_status_changed 1 1,
         Effect.timer_update Timer.observe 1000]) := by
  decide

/-- C13: from a context with status `CP_UNDESIRED`, after a `desired` request
against a backend whose `weston_get_cp` always succeeds reporting not enabled
and whose `weston_set_cp` always succeeds, the retry timer expires
`34 + (15 - num_sec_elapsed)` times (49 when `num_sec_elapsed` is 0) and is
then disarmed, with the observer disarmed as well; these expiries make exactly
3 `weston_set_cp` calls on top of the one made by `desired`, no status-changed
event is sent at any point, and the status is still `CP_DESIRED`. -/
theorem retry_bound (E : Env β) (w : World β) (resource : Nat) (T : Int) (fuel : Nat)
    (hst : w.cp.status = CP_UNDESIRED)
    (hget : ∀ b t, 0 ≤ (E.weston_get_cp b t).1 ∧ (E.weston_get_cp b t).2.1 = false)
    (hset : ∀ b r t, 0 ≤ (E.weston_set_cp b r t).1)
    (hf : 34 + (15 - w.cp.num_sec_elapsed).toNat ≤ fuel) :
    (retry_cadence E fuel (desired E w resource T)).1
      = 34 + (15 - w.cp.num_sec_elapsed).toNat ∧
    (retry_cadence E fuel (desired E w resource T)).2.cp.retry_event_source = 0 ∧
    (retry_cadence E fuel (desired E w resource T)).2.cp.observe_event_source = 0 ∧
    (retry_cadence E fuel (desired E w resource T)).2.cp.status = CP_DESIRED ∧
    (retry_cadence E fuel (desired E w resource T)).2.cp.retries_left = 0 ∧
    set_cp_calls (desired E w resource T).trace = set_cp_calls w.trace + 1 ∧
    set_cp_calls (retry_cadence E fuel (desired E w resource T)).2.trace
      = set_cp_calls (desired E w resource T).trace + 3 ∧
    status_events (retry_cadence E fuel (desired E w resource T)).2.trace
      = status_events w.trace := by
  have hguard : ¬((w.cp.status = CP_DESIRED ∨ w.cp.status = CP_ENABLED) ∧ w.cp.type = T) := by
    simp [hst]
  obtain ⟨ret, en, b1, hg⟩ : ∃ ret en b1, E.weston_get_cp w.backend T = (ret, en, b1) :=
    ⟨_, _, _, rfl⟩
  have hgw := hget w.backend T
  rw [hg] at hgw
  obtain ⟨hret, hen⟩ := hgw
  simp only at hret hen
  subst hen
  have hd := desired_accepted E w resource T ret (E.weston_set_cp b1 1 T).1 b1
    (E.weston_set_cp b1 1 T).2 hguard hg hret rfl (hset b1 1 T)
  have hb : retry_budget (desired E w resource T).cp
      = 33 + (15 - w.cp.num_sec_elapsed).toNat := by
    rw [hd]; simp [retry_budget]; omega
  have h := retry_cadence_never_enabled E hget hset fuel (desired E w resource T)
    (by rw [hd]; simp) (by rw [hd]; simp) (by omega)
  obtain ⟨i1, i2, i3, i4, i5, i6, i7, i8⟩ := h
  refine ⟨by omega, i2, ?_, ?_, i3, ?_, ?_, ?_⟩
  · rw [i8, hd]
  · rw [i6, hd]
  · rw [hd]; simp [set_cp_calls, List.countP_append, List.countP_cons]
  · rw [i4, hd]; simp
  · rw [i5, hd]; simp [status_events, List.countP_append, List.countP_cons]

/-- C13 at a concrete input: type 0 is requested right after a `disable`
request, on the backend `never_enabled`; 49 expiries take place. -/
theorem retry_bound_witness :
    undesired_never.cp.status = CP_UNDESIRED ∧
    (retry_cadence never_enabled 60 (desired never_enabled undesired_never 1 0)).1 = 49 ∧
    (retry_cadence never_enabled 60
      (desired never_enabled undesired_never 1 0)).2.cp.retry_event_source = 0 ∧
    set_cp_calls (retry_cadence never_enabled 60
      (desired never_enabled undesired_never 1 0)).2.trace = 4 ∧
    status_events (retry_cadence never_enabled 60
      (desired never_enabled undesired_never 1 0)).2.trace = 0 :=
  have h := retry_bound never_enabled undesired_never 1 0 60 (by decide)
    (fun _ _ => ⟨le_refl (0 : Int), rfl⟩) (fun _ _ _ => le_refl (0 : Int)) (by decide)
  ⟨by decide, h.1.trans (by decide), h.2.1,
    h.2.2.2.2.2.2.1.trans (by rw [h.2.2.2.2.2.1]; decide), h.2.2.2.2.2.2.2.trans (by decide)⟩

/-- C14: from a context the guard does not catch, a `desired` request for
type `T` on which `weston_get_cp` reports not enabled and `weston_set_cp`
succeeds, followed by one expiry of the retry timer on which `weston_get_cp`
succeeds and reports enabled, ends with status `CP_ENABLED`, stored type `T`,
the observer armed with 1000 and the retry timer disarmed; the only
status-changed event of the two steps carries `T`. -/
theorem confirmation_path (E : Env β) (w : World β) (resource : Nat) (T ret ret2 ret3 : Int)
    (b1 b2 b3 : β)
    (hguard : ¬((w.cp.status = CP_DESIRED ∨ w.cp.status = CP_ENABLED) ∧ w.cp.type = T))
    (hg : E.weston_get_cp w.backend T = (ret, false, b1)) (hret : 0 ≤ ret)
    (hs : E.weston_set_cp b1 1 T = (ret2, b2)) (hret2 : 0 ≤ ret2)
    (hg3 : E.weston_get_cp b2 T = (ret3, true, b3)) (hret3 : 0 ≤ ret3) :
    run E w [Input.Desired resource T, Input.RetryTick] =
      some { cp := { status := CP_ENABLED, type := T, observe_event_source := 1000,
                     retry_event_source := 0, resource := resource, retries_left := 3,
                     num_sec_elapsed := w.cp.num_sec_elapsed },
             backend := b3,
             trace := w.trace ++
               [Effect.weston_get_cp T ret false,
                Effect.timer_update Timer.observe 0,
                Effect.weston_set_cp 1 T ret2,
                Effect.timer_update Timer.retry 100,
                Effect.weston_get_cp T ret3 true,
                Effect.send_status_changed resource T,
                Effect.timer_update Timer.observe 1000] } := by
  have hd := desired_accepted E w resource T ret ret2 b1 b2 hguard hg hret hs hret2
  simp only [run, dispatch, hd]
  rw [if_neg (by decide)]
  simp only []
  rw [retry_confirmed E _ ret3 b3 (by show (0 : Int) < 3; decide) hg3 hret3]
  simp

/-- C14 at a concrete input: type 1 is requested right after start-up and
confirmed by the first expiry of the retry timer. -/
theorem confirmation_path_witness :
    run scripted (wet_module_init { set_rets := [], get_rets := [(0, false), (0, true)] })
        [Input.Desired 1 1, Input.RetryTick] =
      some { cp := { status := CP_ENABLED, type := 1, observe_event_source := 1000,
                     retry_event_source := 0, resource := 1, retries_left := 3,
                     num_sec_elapsed := 0 },
             backend := idle,
             trace :=
               [Effect.weston_get_cp 1 0 false,
                Effect.timer_update Timer.observe 0,
                Effect.weston_set_cp 1 1 0,
                Effect.timer_update Timer.retry 100,
                Effect.weston_get_cp 1 0 true,
                Effect.send_status_changed 1 1,
                Effect.timer_update Timer.observe 1000] } :=
  confirmation_path scripted
    (wet_module_init { set_rets := [], get_rets := [(0, false), (0, true)] }) 1 1 0 0 0
    { set_rets := [], get_rets := [(0, true)] } { set_rets := [], get_rets := [(0, true)] } idle
    (by decide) rfl (by decide) rfl (by decide) rfl (by decide)

/-- C15: with status `CP_ENABLED`, an expiry of the observer timer on which
`weston_get_cp` succeeds.  If it reports not enabled, the status becomes
`CP_FAILED`, one status-changed event carrying
`CONTENT_PROTECTION_TYPE_UNPROTECTED` is sent, the observer stays disarmed and
the stored type, the counters and the retry timer keep their values.  If it
reports enabled, the observer is armed again with 1000, no event is sent and
the context is otherwise unchanged, the status still `CP_ENABLED`. -/
theorem observe_tick_enabled (E : Env β) (w : World β) (ret : Int) (en : Bool) (b1 : β)
    (hst : w.cp.status = CP_ENABLED) (harmed : w.cp.observe_event_source ≠ 0)
    (hg : E.weston_get_cp w.backend w.cp.type = (ret, en, b1)) (hret : 0 ≤ ret) :
    dispatch E w Input.ObserveTick =
      some (if en then
              { cp := { w.cp with observe_event_source := 1000 },
                backend := b1,
                trace := w.trace ++ [Effect.weston_get_cp w.cp.type ret true,
                                     Effect.timer_update Timer.observe 1000] }
            else
              { cp := { w.cp with status := CP_FAILED, observe_event_source := 0 },
                backend := b1,
                trace := w.trace ++ [Effect.weston_get_cp w.cp.type ret false,
                                     Effect.send_status_changed w.cp.resource
                                       E.CONTENT_PROTECTION_TYPE_UNPROTECTED] }) := by
  simp only [dispatch, if_neg harmed]
  cases en with
  | true =>
    rw [observe_still_enabled E { w with cp := { w.cp with observe_event_source := 0 } }
      ret b1 hst hg hret]
    simp
  | false =>
    rw [observe_lost E { w with cp := { w.cp with observe_event_source := 0 } }
      ret b1 hst hg hret]
    simp

/-- C15 at a concrete input: type 0 is enabled and observed, and the backend
then reports it as not enabled. -/
theorem observe_tick_enabled_witness :
    enabled0.cp.status = CP_ENABLED ∧ enabled0.cp.observe_event_source ≠ 0 ∧
    (dispatch scripted enabled0 Input.ObserveTick).map (fun w => (w.cp, w.trace)) =
      some ({ status := CP_FAILED, type := 0, observe_event_source := 0,
              retry_event_source := 0, resource := 1, retries_left := 3,
              num_sec_elapsed := 0 },
            enabled0.trace ++ [Effect.weston_get_cp 0 0 false,
                               Effect.send_status_changed 1 (-1)]) :=
  have h := observe_tick_enabled scripted enabled0 0 false
    { set_rets := [-1], get_rets := [] } (by decide) (by decide) rfl (by decide)
  ⟨by decide, by decide, by rw [h]; rfl⟩

/-! ## The counters stay within their bounds -/

/-- What `desired` does to the counters: `num_sec_elapsed` keeps its value,
`retries_left` keeps its value or becomes 3. -/
theorem desired_counters (E : Env β) (w : World β) (resource : Nat) (T : Int) :
    (desired E w resource T).cp.num_sec_elapsed = w.cp.num_sec_elapsed ∧
    ((desired E w resource T).cp.retries_left = w.cp.retries_left ∨
      (desired E w resource T).cp.retries_left = 3) := by
  simp only [desired, call_get_cp, request_cp_state_eq, wl_event_source_timer_update,
    send_status_changed, MAX_USER_RETRY]
  split_ifs <;> simp

/-- The request `disable` leaves both counters alone. -/
theorem disable_counters (E : Env β) (w : World β) (resource : Nat) :
    (disable E w resource).cp.num_sec_elapsed = w.cp.num_sec_elapsed ∧
    (disable E w resource).cp.retries_left = w.cp.retries_left := by
  simp only [disable, call_get_cp, request_cp_state_eq, wl_event_source_timer_update,
    send_status_changed, usleep]
  split_ifs <;> simp

/-- The callback `observe_cp_state` leaves both counters alone. -/
theorem observe_counters (E : Env β) (w : World β) :
    (observe_cp_state E w).2.cp.num_sec_elapsed = w.cp.num_sec_elapsed ∧
    (observe_cp_state E w).2.cp.retries_left = w.cp.retries_left := by
  simp only [observe_cp_state, call_get_cp, wl_event_source_timer_update,
    send_status_changed]
  split_ifs <;> simp

/-- The callback `retry_cp` keeps the counters within their bounds. -/
theorem retry_counters (E : Env β) (w : World β)
    (h : 0 ≤ w.cp.retries_left ∧ w.cp.retries_left ≤ 3 ∧
      0 ≤ w.cp.num_sec_elapsed ∧ w.cp.num_sec_elapsed ≤ 15) :
    0 ≤ (retry_cp E w).2.cp.retries_left ∧ (retry_cp E w).2.cp.retries_left ≤ 3 ∧
    0 ≤ (retry_cp E w).2.cp.num_sec_elapsed ∧ (retry_cp E w).2.cp.num_sec_elapsed ≤ 15 := by
  simp only [retry_cp, call_get_cp, request_cp_state_eq, wl_event_source_timer_update,
    send_status_changed, MAX_USER_RETRY]
  split_ifs <;> simp <;> omega

/-- One dispatch keeps the counters within their bounds. -/
theorem dispatch_counters (E : Env β) (w w1 : World β) (i : Input)
    (h : 0 ≤ w.cp.retries_left ∧ w.cp.retries_left ≤ 3 ∧
      0 ≤ w.cp.num_sec_elapsed ∧ w.cp.num_sec_elapsed ≤ 15)
    (hd : dispatch E w i = some w1) :
    0 ≤ w1.cp.retries_left ∧ w1.cp.retries_left ≤ 3 ∧
    0 ≤ w1.cp.num_sec_elapsed ∧ w1.cp.num_sec_elapsed ≤ 15 := by
  cases i with
  | Desired resource T =>
    simp only [dispatch, Option.some.injEq] at hd
    subst hd
    have hc := desired_counters E w resource T
    rcases hc with ⟨he, hr | hr⟩ <;> rw [he, hr] <;> omega
  | Disable resource =>
    simp only [dispatch, Option.some.injEq] at hd
    subst hd
    have hc := disable_counters E w resource
    rw [hc.1, hc.2]; exact h
  | RetryTick =>
    simp only [dispatch] at hd
    split_ifs at hd
    simp only [Option.some.injEq] at hd
    subst hd
    exact retry_counters E _ h
  | ObserveTick =>
    simp only [dispatch] at hd
    split_ifs at hd
    simp only [Option.some.injEq] at hd
    subst hd
    have hc := observe_counters E { w with cp := { w.cp with observe_event_source := 0 } }
    rw [hc.1, hc.2]; exact h

/-- A run keeps the counters within their bounds. -/
theorem run_counters (E : Env β) : ∀ (inputs : List Input) (w w1 : World β),
    (0 ≤ w.cp.retries_left ∧ w.cp.retries_left ≤ 3 ∧
      0 ≤ w.cp.num_sec_elapsed ∧ w.cp.num_sec_elapsed ≤ 15) →
    run E w inputs = some w1 →
    0 ≤ w1.cp.retries_left ∧ w1.cp.retries_left ≤ 3 ∧
    0 ≤ w1.cp.num_sec_elapsed ∧ w1.cp.num_sec_elapsed ≤ 15 := by
  intro inputs
  induction inputs with
  | nil =>
    intro w w1 h hr
    simp only [run, Option.some.injEq] at hr
    subst hr; exact h
  | cons i is ih =>
    intro w w1 h hr
    simp only [run] at hr
    cases hd : dispatch E w i with
    | none => rw [hd] at hr; simp at hr
    | some w2 =>
      rw [hd] at hr
      exact ih w2 w1 (dispatch_counters E w w2 i h hd) hr

/-! ## Claims on single steps and on the counters -/

/-- C16: when the stored type is not the requested one, `desired` does not
stop at the guard, whatever the status is, `CP_DESIRED` included: its first
effect is a `weston_get_cp` query for the requested type.  When that query
succeeds reporting not enabled and `weston_set_cp` succeeds, the request ends
with status `CP_DESIRED`, the requested type stored and `retries_left = 3`,
whatever `retries_left` was before. -/
theorem type_switch_while_desired (E : Env β) (w : World β) (resource : Nat)
    (T1 ret : Int) (en : Bool) (b1 : β)
    (hne : w.cp.type ≠ T1)
    (hg : E.weston_get_cp w.backend T1 = (ret, en, b1)) :
    (∃ rest, (desired E w resource T1).trace
        = w.trace ++ Effect.weston_get_cp T1 ret en :: rest) ∧
    (0 ≤ ret → en = false → 0 ≤ (E.weston_set_cp b1 1 T1).1 →
      (desired E w resource T1).cp.status = CP_DESIRED ∧
      (desired E w resource T1).cp.type = T1 ∧
      (desired E w resource T1).cp.retries_left = 3) := by
  have hguard : ¬((w.cp.status = CP_DESIRED ∨ w.cp.status = CP_ENABLED) ∧ w.cp.type = T1) :=
    fun h => hne h.2
  constructor
  · by_cases hret : ret < 0
    · exact ⟨[], by rw [desired_query_failed E w resource T1 ret en b1 hguard hg hret]⟩
    · have hret' : 0 ≤ ret := not_lt.mp hret
      cases en with
      | true =>
        exact ⟨_, by rw [desired_already_enabled E w resource T1 ret b1 hguard hg hret']⟩
      | false =>
        by_cases hret2 : (E.weston_set_cp b1 1 T1).1 < 0
        · refine ⟨[Effect.timer_update Timer.observe 0,
              Effect.weston_set_cp 1 T1 (E.weston_set_cp b1 1 T1).1] ++
            (if (E.weston_set_cp b1 1 T1).1 = -EBUSY then [Effect.sleep 1] else []), ?_⟩
          rw [desired_set_failed E w resource T1 ret _ b1 _ hguard hg hret' rfl hret2]
          simp
        · exact ⟨_, by rw [desired_accepted E w resource T1 ret _ b1 _ hguard hg hret' rfl
            (not_lt.mp hret2)]⟩
  · intro hret hen hset
    subst hen
    rw [desired_accepted E w resource T1 ret _ b1 _ hguard hg hret rfl hset]
    simp

/-- C16 at a concrete input: type 0 is desired, type 1 is requested and
accepted. -/
theorem type_switch_while_desired_witness :
    accepted0.cp.status = CP_DESIRED ∧ accepted0.cp.type = 0 ∧
    (desired scripted accepted0 1 1).trace = accepted0.trace ++
      [Effect.weston_get_cp 1 0 false, Effect.timer_update Timer.observe 0,
       Effect.weston_set_cp 1 1 0, Effect.timer_update Timer.retry 100] ∧
    (desired scripted accepted0 1 1).cp.status = CP_DESIRED ∧
    (desired scripted accepted0 1 1).cp.type = 1 ∧
    (desired scripted accepted0 1 1).cp.retries_left = 3 :=
  have h := (type_switch_while_desired scripted accepted0 1 1 0 false idle
    (by decide) rfl).2 (by decide) rfl (by decide)
  ⟨by decide, by decide, by decide, h.1, h.2.1, h.2.2⟩

/-- C17: from a context with `retries_left ≤ 3` and `0 ≤ num_sec_elapsed`,
under any backend, the retry cadence (expiries of the retry timer with no
request in between) takes at most 49 expiries; after 49 the timer is disarmed,
so the timer can be found armed only after at most 48 of them; and the cadence
makes at most 3 `weston_set_cp` calls. -/
theorem retry_cadence_terminates (E : Env β) (w : World β) (fuel : Nat)
    (hr : w.cp.retries_left ≤ 3) (he : 0 ≤ w.cp.num_sec_elapsed) :
    (retry_cadence E fuel w).1 ≤ 49 ∧
    (49 ≤ fuel → (retry_cadence E fuel w).2.cp.retry_event_source = 0) ∧
    ((retry_cadence E fuel w).2.cp.retry_event_source ≠ 0 → fuel ≤ 48) ∧
    set_cp_calls (retry_cadence E fuel w).2.trace ≤ set_cp_calls w.trace + 3 := by
  have hb : retry_budget w.cp ≤ 48 := by
    simp only [retry_budget]
    split <;> omega
  have h := retry_cadence_bound E fuel w
  refine ⟨by omega, fun hf => h.2.1 (by omega), fun ha => ?_, by omega⟩
  by_contra hlt
  exact ha (h.2.1 (by omega))

/-- C17 at a concrete input: type 0 has just been accepted and the backend
never reports it enabled; the cadence stops after 49 expiries and 3 calls. -/
theorem retry_cadence_terminates_witness :
    accepted0.cp.retries_left ≤ 3 ∧ 0 ≤ accepted0.cp.num_sec_elapsed ∧
    (retry_cadence scripted 49 accepted0).1 ≤ 49 ∧
    (retry_cadence scripted 49 accepted0).2.cp.retry_event_source = 0 ∧
    set_cp_calls (retry_cadence scripted 49 accepted0).2.trace
      ≤ set_cp_calls accepted0.trace + 3 :=
  have h := retry_cadence_terminates scripted accepted0 49 (by decide) (by decide)
  ⟨by decide, by decide, h.1, h.2.1 (le_refl 49), h.2.2.2⟩

/-- C18: `retry_cp` lowers `retries_left` by one exactly when, on entry,
`retries_left > 0`, the `weston_get_cp` query succeeds reporting not enabled,
`num_sec_elapsed` is at least 15 and the `weston_set_cp` call succeeds;
otherwise `retries_left` keeps its value.  In that case `num_sec_elapsed`
becomes 0 and the retry timer is armed with 1000.  When `retries_left > 0`,
the query succeeds reporting not enabled and `num_sec_elapsed < 15`, the
callback adds one to `num_sec_elapsed`, arms the retry timer with 1000, makes
no `weston_set_cp` call and changes nothing else. -/
theorem retry_tick_decrement (E : Env β) (w : World β) (ret : Int) (en : Bool) (b1 : β)
    (hg : E.weston_get_cp w.backend w.cp.type = (ret, en, b1)) :
    ((retry_cp E w).2.cp.retries_left = w.cp.retries_left - 1 ↔
      (0 < w.cp.retries_left ∧ 0 ≤ ret ∧ en = false ∧ 15 ≤ w.cp.num_sec_elapsed ∧
        0 ≤ (E.weston_set_cp b1 1 w.cp.type).1)) ∧
    ((retry_cp E w).2.cp.retries_left = w.cp.retries_left - 1 ∨
      (retry_cp E w).2.cp.retries_left = w.cp.retries_left) ∧
    (0 < w.cp.retries_left → 0 ≤ ret → en = false → 15 ≤ w.cp.num_sec_elapsed →
      0 ≤ (E.weston_set_cp b1 1 w.cp.type).1 →
      (retry_cp E w).2.cp.num_sec_elapsed = 0 ∧
      (retry_cp E w).2.cp.retry_event_source = 1000) ∧
    (0 < w.cp.retries_left → 0 ≤ ret → en = false → w.cp.num_sec_elapsed < 15 →
      retry_cp E w =
        (0, { cp := { w.cp with num_sec_elapsed := w.cp.num_sec_elapsed + 1,
                                retry_event_source := 1000 },
              backend := b1,
              trace := w.trace ++ [Effect.weston_get_cp w.cp.type ret false,
                                   Effect.timer_update Timer.retry 1000] })) := by
  by_cases hr : w.cp.retries_left ≤ 0
  · rw [retry_exhausted E w hr]
    refine ⟨⟨fun h => ?_, fun h => ?_⟩, Or.inr rfl, fun h => ?_, fun h => ?_⟩ <;>
      (simp at *; try omega)
  · have hr' : 0 < w.cp.retries_left := not_le.mp hr
    by_cases hret : ret < 0
    · rw [retry_query_failed E w ret en b1 hr' hg hret]
      refine ⟨⟨fun h => ?_, fun h => ?_⟩, Or.inr rfl, fun _ h => ?_, fun _ h => ?_⟩ <;>
        (simp at *; try omega)
    · have hret' : 0 ≤ ret := not_lt.mp hret
      cases en with
      | true =>
        rw [retry_confirmed E w ret b1 hr' hg hret']
        refine ⟨⟨fun h => ?_, fun h => ?_⟩, Or.inr rfl, fun _ _ h => ?_, fun _ _ h => ?_⟩ <;>
          (simp at *; try omega)
      | false =>
        by_cases he : w.cp.num_sec_elapsed < 15
        · rw [retry_waits E w ret b1 hr' hg hret' he]
          refine ⟨⟨fun h => ?_, fun h => ?_⟩, Or.inr rfl, fun _ _ _ h => ?_,
            fun _ _ _ _ => rfl⟩ <;> (simp at *; try omega)
        · have he' : 15 ≤ w.cp.num_sec_elapsed := not_lt.mp he
          by_cases hret2 : (E.weston_set_cp b1 1 w.cp.type).1 < 0
          · rw [retry_escalation_failed E w ret _ b1 _ hr' hg hret' he' rfl hret2]
            refine ⟨⟨fun h => ?_, fun h => ?_⟩, Or.inr rfl, fun _ _ _ _ h => ?_,
              fun _ _ _ h => ?_⟩ <;> (simp at *; try omega)
          · rw [retry_escalated E w ret _ b1 _ hr' hg hret' he' rfl (not_lt.mp hret2)]
            exact ⟨⟨fun _ => ⟨hr', hret', rfl, he', not_lt.mp hret2⟩, fun _ => rfl⟩,
              Or.inl rfl, fun _ _ _ _ _ => ⟨rfl, rfl⟩, fun _ _ _ h => absurd h he⟩

/-- C18 at concrete inputs: right after type 0 was accepted the expiry only
waits; after fifteen waiting expiries the next one escalates, and
`retries_left` goes from 3 to 2. -/
theorem retry_tick_decrement_witness :
    retry_cp scripted accepted0 =
      (0, { cp := { status := CP_DESIRED, type := 0, observe_event_source := 0,
                    retry_event_source := 1000, resource := 1, retries_left := 3,
                    num_sec_elapsed := 1 },
            backend := idle,
            trace := accepted0.trace ++ [Effect.weston_get_cp 0 0 false,
                                         Effect.timer_update Timer.retry 1000] }) ∧
    (retry_cadence scripted 15 accepted0).2.cp.num_sec_elapsed = 15 ∧
    (retry_cp scripted (retry_cadence scripted 15 accepted0).2).2.cp.retries_left = 2 ∧
    (retry_cp scripted (retry_cadence scripted 15 accepted0).2).2.cp.num_sec_elapsed = 0 ∧
    (retry_cp scripted (retry_cadence scripted 15 accepted0).2).2.cp.retry_event_source
      = 1000 :=
  have h1 := retry_tick_decrement scripted accepted0 0 false idle rfl
  have h2 := retry_tick_decrement scripted (retry_cadence scripted 15 accepted0).2 0 false idle
    rfl
  ⟨h1.2.2.2 (by decide) (by decide) rfl (by decide), by decide,
    (h2.1.mpr ⟨by decide, by decide, rfl, by decide, by decide⟩).trans (by decide),
    (h2.2.2.1 (by decide) (by decide) rfl (by decide) (by decide)).1,
    (h2.2.2.1 (by decide) (by decide) rfl (by decide) (by decide)).2⟩

/-- C19 as stated fails: with type 0 enabled and the observer armed, an expiry
of the observer timer on which `weston_get_cp` fails leaves the status
`CP_ENABLED`; it is not set to `CP_FAILED`.  The observer is left disarmed. -/
theorem observe_query_failure_counterexample :
    observed_fail0.cp.status = CP_ENABLED ∧
    observed_fail0.cp.observe_event_source = 1000 ∧
    (dispatch scripted observed_fail0 Input.ObserveTick).map (fun w => (w.cp, w.trace)) =
      some ({ status := CP_ENABLED, type := 0, observe_event_source := 0,
              retry_event_source := 0, resource := 1, retries_left := 3,
              num_sec_elapsed := 0 },
            observed_fail0.trace ++ [Effect.weston_get_cp 0 (-1) true]) := by
  decide

/-- C19, amended: when the `weston_get_cp` query fails, an expiry of the retry
timer with `retries_left > 0` sets the status to `CP_FAILED`, sends no event,
makes no `weston_set_cp` call and leaves the retry timer disarmed; an expiry
of the observer timer leaves the observer disarmed, sends no event and
changes nothing else in the context, so a status `CP_ENABLED` stays
`CP_ENABLED`. -/
theorem tick_query_failed (E : Env β) (w : World β) (ret : Int) (en : Bool) (b1 : β)
    (hg : E.weston_get_cp w.backend w.cp.type = (ret, en, b1)) (hret : ret < 0) :
    (0 < w.cp.retries_left → w.cp.retry_event_source ≠ 0 →
      dispatch E w Input.RetryTick =
        some { cp := { w.cp with status := CP_FAILED, retry_event_source := 0 },
               backend := b1,
               trace := w.trace ++ [Effect.weston_get_cp w.cp.type ret en] }) ∧
    (w.cp.observe_event_source ≠ 0 →
      dispatch E w Input.ObserveTick =
        some { cp := { w.cp with observe_event_source := 0 },
               backend := b1,
               trace := w.trace ++ [Effect.weston_get_cp w.cp.type ret en] }) := by
  constructor
  · intro hr harmed
    simp only [dispatch, if_neg harmed]
    rw [retry_query_failed E { w with cp := { w.cp with retry_event_source := 0 } }
      ret en b1 hr hg hret]
  · intro harmed
    simp only [dispatch, if_neg harmed]
    rw [observe_query_failed E { w with cp := { w.cp with observe_event_source := 0 } }
      ret en b1 hg hret]

/-- C19, amended, at concrete inputs: the query fails on an expiry of the
retry timer while type 0 is desired, and on an expiry of the observer timer
while type 0 is enabled. -/
theorem tick_query_failed_witness :
    (dispatch scripted accepted_fail0 Input.RetryTick).map (fun w => (w.cp, w.trace)) =
      some ({ status := CP_FAILED, type := 0, observe_event_source := 0,
              retry_event_source := 0, resource := 1, retries_left := 3,
              num_sec_elapsed := 0 },
            accepted_fail0.trace ++ [Effect.weston_get_cp 0 (-1) false]) ∧
    (dispatch scripted observed_fail0 Input.ObserveTick).map (fun w => w.cp.status) =
      some CP_ENABLED :=
  have h1 := (tick_query_failed scripted accepted_fail0 (-1) false idle rfl (by decide)).1
    (by decide) (by decide)
  have h2 := (tick_query_failed scripted observed_fail0 (-1) true idle rfl (by decide)).2
    (by decide)
  ⟨by rw [h1]; rfl, by rw [h2]; rfl⟩

/-- C20: in every state reached from the context left by `wet_module_init` by
any sequence of requests and timer expiries, under any backend,
`0 ≤ retries_left ≤ 3` and `0 ≤ num_sec_elapsed ≤ 15`. -/
theorem counter_bounds (E : Env β) (b0 : β) (inputs : List Input) (w : World β)
    (h : run E (wet_module_init b0) inputs = some w) :
    0 ≤ w.cp.retries_left ∧ w.cp.retries_left ≤ 3 ∧
    0 ≤ w.cp.num_sec_elapsed ∧ w.cp.num_sec_elapsed ≤ 15 :=
  run_counters E inputs (wet_module_init b0) w (by simp [wet_module_init, MAX_USER_RETRY]) h

/-- C20 at a concrete run: type 0 is accepted and the retry timer expires
once. -/
theorem counter_bounds_witness :
    run scripted (wet_module_init idle) [Input.Desired 1 0, Input.RetryTick] =
      some { cp := { status := CP_DESIRED, type := 0, observe_event_source := 0,
                     retry_event_source := 1000, resource := 1, retries_left := 3,
                     num_sec_elapsed := 1 },
             backend := idle,
             trace := [Effect.weston_get_cp 0 0 false, Effect.timer_update Timer.observe 0,
                       Effect.weston_set_cp 1 0 0, Effect.timer_update Timer.retry 100,
                       Effect.weston_get_cp 0 0 false,
                       Effect.timer_update Timer.retry 1000] } ∧
    (0 : Int) ≤ 3 ∧ (3 : Int) ≤ 3 ∧ (0 : Int) ≤ 1 ∧ (1 : Int) ≤ 15 :=
  ⟨rfl, counter_bounds scripted idle [Input.Desired 1 0, Input.RetryTick] _ rfl⟩

end ContentProtection
